import Mathlib

/-!
A verification development for `src/eucalyptus/src/scripts/convert_model_to_image.py`,
the thumbnail-generation script of the repository.  The script is embedded shallowly:

* `PyVal` models the Python runtime values the script inspects (None, strings,
  bytes, and `io.BytesIO` buffers, the latter as the constructor `buffer`);
* `pySplitext`, `pyBasename`, `pyDirname`, `pyJoin`, `pyLower` embed the
  `posixpath` / `str` operations the script calls (`os.path.splitext`,
  `os.path.basename`, `os.path.dirname`, `os.path.join`, `str.lower`),
  following CPython's `posixpath.py` for ASCII paths;
* `FS` models the filesystem as association lists of files and of directory
  listings; directory listings are snapshots (as returned by `os.listdir`),
  which is all the script ever observes since it lists each directory once,
  before any write of that run;
* `Renderers` models the external rendering collaborator (`model_to_image`:
  `process_obj`, `glb_to_image`, `process_stl`), which the spec treats as an
  opaque capability returning values;
* `ProcessModel.init`, `ProcessModel.selectImage`, `ProcessModel.finishWrite`,
  `ProcessModel.render` and `process_path` embed the script itself.  The
  script has no `try`/`except`, so every raised exception escapes; `none`
  models an uncaught exception, and the modelled sources are the ones the
  state space represents: reading a `.glb` file that does not exist,
  `os.makedirs` on a thumbnails path that exists as a regular file
  (`FileExistsError`), and opening for write a thumbnail path that exists as
  a directory (`IsADirectoryError`).
-/

/-- A Python runtime value, as far as the script observes values: `None`,
a `str`, a `bytes` object, or an `io.BytesIO` buffer (constructor `buffer`,
holding the bytes `getvalue()` would return). -/
inductive PyVal where
  | pyNone
  | pyStr (s : String)
  | pyBytes (b : List Nat)
  | buffer (contents : List Nat)
  deriving DecidableEq

/-- Python truthiness (`bool(v)`) for the modelled values: `None` is falsy,
`str`/`bytes` are truthy iff non-empty, and `io.BytesIO` defines neither
`__bool__` nor `__len__`, so a `buffer` is always truthy. -/
def PyVal.truthy : PyVal → Bool
  | .pyNone => false
  | .pyStr s => !s.isEmpty
  | .pyBytes b => !b.isEmpty
  | .buffer _ => true

/-- `str(v)` / f-string formatting of a modelled value.  For `None` Python
prints `None`; a `str` formats as itself.  The reprs of `bytes` and
`io.BytesIO` objects are content/address dependent in Python and abstracted
here by fixed placeholders; no claim inspects those two messages. -/
def pyToString : PyVal → String
  | .pyNone => "None"
  | .pyStr s => s
  | .pyBytes _ => "<bytes object>"
  | .buffer _ => "<_io.BytesIO object>"

/-- `str.rfind(c)` for a single character over the string's characters:
the highest index at which `c` occurs, or `-1` when it does not occur. -/
def pyRfind (c : Char) (l : List Char) : Int :=
  match l.reverse.findIdx? (· == c) with
  | some k => ((l.length - 1 - k : Nat) : Int)
  | none => -1

/-- `posixpath.splitext` on the character list of a path (CPython
`genericpath._splitext` with `sep = '/'`, `extsep = '.'`): split at the last
dot if it lies after the last slash and the characters between them are not
all dots (a basename of leading dots only, such as `.bashrc`, has no
extension). -/
def pySplitextL (l : List Char) : List Char × List Char :=
  let sepIndex := pyRfind '/' l
  let dotIndex := pyRfind '.' l
  if sepIndex < dotIndex then
    let fstart := (sepIndex + 1).toNat
    let d := dotIndex.toNat
    if ((l.take d).drop fstart).any (fun ch => ch != '.') then
      (l.take d, l.drop d)
    else (l, [])
  else (l, [])

/-- `os.path.splitext` on strings. -/
def pySplitext (p : String) : String × String :=
  (⟨(pySplitextL p.data).1⟩, ⟨(pySplitextL p.data).2⟩)

/-- `os.path.basename` (posix): everything after the last slash. -/
def pyBasename (p : String) : String :=
  ⟨p.data.drop (pyRfind '/' p.data + 1).toNat⟩

/-- Remove trailing slashes, as `head.rstrip('/')` does in
`posixpath.dirname`. -/
def dropTrailingSlashes (l : List Char) : List Char :=
  (l.reverse.dropWhile (· == '/')).reverse

/-- `os.path.dirname` (posix): the prefix up to and including the last slash,
with trailing slashes stripped unless the result consists of slashes only. -/
def pyDirname (p : String) : String :=
  let l := p.data
  let head := l.take (pyRfind '/' l + 1).toNat
  if head.isEmpty || head.all (· == '/') then ⟨head⟩
  else ⟨dropTrailingSlashes head⟩

/-- `os.path.join a b` (posix, two arguments): `b` if it is absolute,
otherwise `a ++ b` when `a` is empty or ends with a slash, otherwise
`a ++ "/" ++ b`. -/
def pyJoin (a b : String) : String :=
  if b.data.head? = some '/' then b
  else if a.data = [] ∨ a.data.getLast? = some '/' then a ++ b
  else ⟨a.data ++ '/' :: b.data⟩

/-- `str.lower()`; `Char.toLower` agrees with Python on ASCII, which covers
every extension the script compares against. -/
def pyLower (s : String) : String :=
  ⟨s.data.map Char.toLower⟩

/-- `os.path.splitext(p)[1].lower()`, the expression the script uses both in
`ProcessModel.render` and in `process_path` to obtain a comparable
extension. -/
def pyExtOf (p : String) : String :=
  pyLower (pySplitext p).2

/-- `SUPPORTED_EXTS = {".obj", ".glb", ".stl"}` (the script only tests
membership, so a list models the set). -/
def SUPPORTED_EXTS : List String := [".obj", ".glb", ".stl"]

/-- First-match association-list lookup; also models Python `dict` indexing
and `in` (a `dict` has unique keys, under which first match is the match). -/
def alookup {β : Type} (k : String) : List (String × β) → Option β
  | [] => none
  | (q, v) :: rest => if q = k then some v else alookup k rest

/-- Overwrite-or-append update of an association list, modelling
`open(path, "wb").write(...)`: replace the contents stored at the path if
present, otherwise add a new entry. -/
def writeEntries (p : String) (c : List Nat) : List (String × List Nat) → List (String × List Nat)
  | [] => [(p, c)]
  | (q, v) :: rest => if q = p then (p, c) :: rest else (q, v) :: writeEntries p c rest

/-- The filesystem model: regular files with their byte contents, and
directories with their listing (entry names in the platform's native order,
as `os.listdir` returns them).  Listings are snapshots: creating a file or a
subdirectory does not rewrite the parent's stored listing, which no modelled
execution observes, because the script lists a directory exactly once and
before any write of that run. -/
structure FS where
  files : List (String × List Nat)
  dirs : List (String × List String)
  deriving DecidableEq

/-- `os.path.isfile`. -/
def FS.isfile (fs : FS) (p : String) : Bool :=
  (alookup p fs.files).isSome

/-- `open(p, "rb").read()`: `none` models the `FileNotFoundError` raised for
a missing file. -/
def FS.readFile (fs : FS) (p : String) : Option (List Nat) :=
  alookup p fs.files

/-- `os.path.isdir`. -/
def FS.isdir (fs : FS) (p : String) : Bool :=
  (alookup p fs.dirs).isSome

/-- `os.listdir`. -/
def FS.listdir (fs : FS) (p : String) : List String :=
  (alookup p fs.dirs).getD []

/-- `open(p, "wb")` followed by writing `c`.  `none` models the `OSError`
this state space represents: opening for write a path that exists as a
directory raises `IsADirectoryError`.  Otherwise the file is created or
truncated and afterwards holds exactly `c`. -/
def FS.writeFile (fs : FS) (p : String) (c : List Nat) : Option FS :=
  if fs.isdir p then none
  else some { fs with files := writeEntries p c fs.files }

/-- `os.makedirs(d, exist_ok=True)` in the situation every modelled run is
in (the parent directory of `d` exists): nothing happens when `d` already
exists as a directory; `none` models the `FileExistsError` raised when the
path exists as a regular file instead of a directory (`exist_ok=True` does
not forgive that); otherwise `d` is created with an empty listing. -/
def FS.makedirs (fs : FS) (d : String) : Option FS :=
  if fs.isdir d then some fs
  else if fs.isfile d then none
  else some { fs with dirs := fs.dirs ++ [(d, [])] }

/-- The external rendering collaborator (`model_to_image`), modelled as the
spec's section 6 describes it: `process_obj` and `glb_to_image` return a
value (an image buffer or a failure value), `process_stl` returns an ordered
mapping from view names to values (possibly carrying an `"error"` key). -/
structure Renderers where
  process_obj : String → PyVal
  glb_to_image : List Nat → PyVal
  process_stl : String → List (String × PyVal)

/-- The `ProcessModel` object: the fields `__init__` computes and stores. -/
structure ProcessModel where
  model_path : String
  model_dir : String
  model_name : String
  thumbnails_dir : String
  output_dir : String
  deriving DecidableEq

/-- `ProcessModel.__init__(model_path)`: derive `model_dir`, `model_name`,
`thumbnails_dir` and `output_dir` from the path, and create the thumbnails
directory (`os.makedirs(..., exist_ok=True)`) as a side effect.  Returns the
constructed object together with the filesystem after the `makedirs`;
`none` propagates the `FileExistsError` that `os.makedirs` raises when the
thumbnails path exists as a regular file — the script has no
`try`/`except`, so the exception escapes the constructor. -/
def ProcessModel.init (model_path : String) (fs : FS) : Option (ProcessModel × FS) :=
  let model_dir := pyDirname model_path
  let model_name := (pySplitext (pyBasename model_path)).1
  let thumbnails_dir := pyJoin model_dir "thumbnails"
  match fs.makedirs thumbnails_dir with
  | none => none
  | some fs1 =>
    let output_dir := pyJoin thumbnails_dir (model_name ++ ".png")
    some (⟨model_path, model_dir, model_name, thumbnails_dir, output_dir⟩, fs1)

/-- The `for img_bytes in stl_images.values(): if img_bytes: ...` loop of
`render`, starting from `image_bytes = None`: the first truthy value of the
mapping in its insertion order, or `None` when there is none. -/
def firstTruthy (stl_images : List (String × PyVal)) : PyVal :=
  ((stl_images.map Prod.snd).find? PyVal.truthy).getD .pyNone

/-- The STL view-selection logic of `render` once the `"error"` key is known
to be absent: `stl_images["front"]` if present and truthy, else the first
truthy value in insertion order (else `None`). -/
def stlSelect (stl_images : List (String × PyVal)) : PyVal :=
  match alookup "front" stl_images with
  | some v => if v.truthy then v else firstTruthy stl_images
  | none => firstTruthy stl_images

/-- Outcome of the dispatch-and-select phase of `render` (everything before
the final `isinstance(image_bytes, io.BytesIO)` test): an early `return
False` with the lines it printed, an uncaught exception (reading a missing
`.glb` file), or fall-through with the computed `image_bytes`. -/
inductive SelectOutcome where
  | earlyFail (msgs : List String)
  | fileMissing
  | selected (image_bytes : PyVal)
  deriving DecidableEq

/-- Lines 27–49 of the script: dispatch on the lowercased extension of
`model_path`; `.obj` calls `process_obj` on the path, `.glb` reads the file
and calls `glb_to_image` on its bytes, `.stl` calls `process_stl` on the
path and applies the error check and view selection, and any other extension
prints `Unsupported model format: ...` and returns `False`. -/
def ProcessModel.selectImage (pm : ProcessModel) (R : Renderers) (fs : FS) : SelectOutcome :=
  let ext := pyExtOf pm.model_path
  if ext = ".obj" then .selected (R.process_obj pm.model_path)
  else if ext = ".glb" then
    match fs.readFile pm.model_path with
    | none => .fileMissing
    | some glb_bytes => .selected (R.glb_to_image glb_bytes)
  else if ext = ".stl" then
    let stl_images := R.process_stl pm.model_path
    match alookup "error" stl_images with
    | some e => .earlyFail [pyToString e]
    | none => .selected (stlSelect stl_images)
  else .earlyFail ["Unsupported model format: " ++ ext]

/-- Lines 51–58 of the script: the `isinstance(image_bytes, io.BytesIO)`
test.  A buffer is written verbatim to `output_dir` and success is reported;
anything else prints `Model conversion failed or returned error: ...` and
returns `False` without writing.  `none` propagates the uncaught `OSError`
of a failing `open(self.output_dir, "wb")`. -/
def ProcessModel.finishWrite (pm : ProcessModel) (image_bytes : PyVal) (fs : FS) :
    Option (Bool × List String × FS) :=
  match image_bytes with
  | .buffer contents =>
    match fs.writeFile pm.output_dir contents with
    | none => none
    | some fs2 => some (true, ["Thumbnail saved to " ++ pm.output_dir], fs2)
  | v => some (false, ["Model conversion failed or returned error: " ++ pyToString v], fs)

/-- `ProcessModel.render`: the selection phase followed by the buffer test
and write.  The result is the returned boolean, the printed lines, and the
filesystem after the call; `none` models an uncaught exception (a missing
`.glb` file, or a failing thumbnail write). -/
def ProcessModel.render (pm : ProcessModel) (R : Renderers) (fs : FS) :
    Option (Bool × List String × FS) :=
  match pm.selectImage R fs with
  | .earlyFail msgs => some (false, msgs, fs)
  | .fileMissing => none
  | .selected v => pm.finishWrite v fs

/-- The `for fname in os.listdir(path)` loop of `process_path`: for each
entry, join it to the directory, and when it is a regular file with a
supported extension, print `Processing file: ...`, construct a
`ProcessModel` and call `render`, discarding its boolean result.  The
accumulated printed lines and the evolving filesystem are threaded through;
`none` propagates an uncaught exception. -/
def walkLoop (dirPath : String) (R : Renderers) :
    List String → FS → List String → Option (FS × List String)
  | [], fs, msgs => some (fs, msgs)
  | fname :: rest, fs, msgs =>
    let fpath := pyJoin dirPath fname
    if fs.isfile fpath && SUPPORTED_EXTS.contains (pyExtOf fname) then
      match ProcessModel.init fpath fs with
      | none => none
      | some ir =>
        match ir.1.render R ir.2 with
        | none => none
        | some (_, ms, fs2) =>
          walkLoop dirPath R rest fs2 (msgs ++ ("Processing file: " ++ fpath) :: ms)
    else walkLoop dirPath R rest fs msgs

/-- `process_path(path)`: a directory is announced and its direct entries
walked; a regular file with a supported extension is announced and rendered;
a regular file with an unsupported extension is reported; a missing path is
reported.  The result is the final filesystem and printed lines, or `none`
for an uncaught exception. -/
def process_path (path : String) (R : Renderers) (fs : FS) : Option (FS × List String) :=
  if fs.isdir path then
    walkLoop path R (fs.listdir path) fs ["Processing folder: " ++ path]
  else if fs.isfile path then
    let ext := pyExtOf path
    if SUPPORTED_EXTS.contains ext then
      match ProcessModel.init path fs with
      | none => none
      | some ir =>
        match ir.1.render R ir.2 with
        | none => none
        | some (_, ms, fs2) => some (fs2, ("Processing file: " ++ path) :: ms)
    else some (fs, ["Unsupported file format: " ++ ext])
  else some (fs, ["Path does not exist: " ++ path])

/-! ## Basic facts about the selection and write phases -/

theorem alookup_eq_none_of_all {β : Type} {k : String} {l : List (String × β)}
    (h : ∀ q v, (q, v) ∈ l → q ≠ k) : alookup k l = none := by
  induction l with
  | nil => rfl
  | cons kv rest ih =>
    obtain ⟨q, v⟩ := kv
    simp only [alookup]
    rw [if_neg (h q v (by simp))]
    exact ih fun q' v' hm => h q' v' (by simp [hm])

theorem alookup_mem {β : Type} {k : String} {l : List (String × β)} {v : β}
    (h : alookup k l = some v) : (k, v) ∈ l := by
  induction l with
  | nil => simp [alookup] at h
  | cons kv rest ih =>
    obtain ⟨q, w⟩ := kv
    by_cases hq : q = k
    · subst hq
      simp [alookup] at h
      subst h
      exact List.mem_cons_self _ _
    · simp only [alookup, if_neg hq] at h
      exact List.mem_cons_of_mem _ (ih h)

theorem firstTruthy_eq_none {d : List (String × PyVal)}
    (h : (d.map Prod.snd).all (fun w => !w.truthy) = true) :
    firstTruthy d = .pyNone := by
  unfold firstTruthy
  have : (d.map Prod.snd).find? PyVal.truthy = none := by
    rw [List.find?_eq_none]
    intro x hx
    have := List.all_eq_true.mp h x hx
    simpa using this
  rw [this]
  rfl

/-! ## Claims about the dispatch of `render` -/

/-- Claim C1: `render` dispatches on the lowercased extension of the model
path.  `.obj` routes to `process_obj` on the path, `.glb` routes to
`glb_to_image` on the file's bytes, `.stl` routes to `process_stl` on the
path (with the error check and view selection applied), each compared
case-insensitively because the extension is lowercased first; any other
extension makes `render` return `false` with the message
`Unsupported model format: ...`, and the filesystem it returns is exactly
the one it was given — no file or directory is created or written by
`render`. -/
theorem render_dispatches_on_lowercased_extension
    (pm : ProcessModel) (R : Renderers) (fs : FS) :
    (pyExtOf pm.model_path = ".obj" →
      pm.render R fs = pm.finishWrite (R.process_obj pm.model_path) fs) ∧
    (pyExtOf pm.model_path = ".glb" → ∀ bs, fs.readFile pm.model_path = some bs →
      pm.render R fs = pm.finishWrite (R.glb_to_image bs) fs) ∧
    (pyExtOf pm.model_path = ".stl" →
      (∀ e, alookup "error" (R.process_stl pm.model_path) = some e →
        pm.render R fs = some (false, [pyToString e], fs)) ∧
      (alookup "error" (R.process_stl pm.model_path) = none →
        pm.render R fs = pm.finishWrite (stlSelect (R.process_stl pm.model_path)) fs)) ∧
    (pyExtOf pm.model_path ∉ SUPPORTED_EXTS →
      pm.render R fs =
        some (false, ["Unsupported model format: " ++ pyExtOf pm.model_path], fs)) := by
  refine ⟨?_, ?_, ?_, ?_⟩
  · intro h
    simp [ProcessModel.render, ProcessModel.selectImage, h]
  · intro h bs hbs
    simp [ProcessModel.render, ProcessModel.selectImage, h, hbs]
  · intro h
    constructor
    · intro e he
      simp [ProcessModel.render, ProcessModel.selectImage, h, he]
    · intro he
      simp [ProcessModel.render, ProcessModel.selectImage, h, he]
  · intro h
    simp only [SUPPORTED_EXTS, List.mem_cons, List.mem_singleton, not_or] at h
    obtain ⟨h1, h2, h3⟩ := h
    simp [ProcessModel.render, ProcessModel.selectImage, h1, h2, h3]

/-- Concrete check of claim C1: a `.OBJ` path (uppercase) routes to the OBJ
strategy, and a `.jpg` path fails with the unsupported-format message and an
unchanged filesystem. -/
theorem render_dispatch_concrete :
    pyExtOf "m/a.OBJ" = ".obj" ∧
    pyExtOf "m/x.jpg" ∉ SUPPORTED_EXTS ∧
    ((⟨"m/a.OBJ", "m", "a", "m/thumbnails", "m/thumbnails/a.png"⟩ : ProcessModel).render
        ⟨fun _ => .buffer [9], fun _ => .pyNone, fun _ => []⟩ ⟨[], []⟩ =
      (⟨"m/a.OBJ", "m", "a", "m/thumbnails", "m/thumbnails/a.png"⟩ :
        ProcessModel).finishWrite (.buffer [9]) ⟨[], []⟩) ∧
    ((⟨"m/x.jpg", "m", "x", "m/thumbnails", "m/thumbnails/x.png"⟩ : ProcessModel).render
        ⟨fun _ => .buffer [9], fun _ => .pyNone, fun _ => []⟩ ⟨[], []⟩ =
      some (false, ["Unsupported model format: .jpg"], ⟨[], []⟩)) := by
  refine ⟨by decide, by decide, ?_, ?_⟩
  · exact (render_dispatches_on_lowercased_extension _ _ _).1 (by decide)
  · have h := (render_dispatches_on_lowercased_extension
      (⟨"m/x.jpg", "m", "x", "m/thumbnails", "m/thumbnails/x.png"⟩ : ProcessModel)
      ⟨fun _ => .buffer [9], fun _ => .pyNone, fun _ => []⟩ ⟨[], []⟩).2.2.2 (by decide)
    simpa using h

/-! ## Claims about STL view selection -/

/-- Claim C2: when an error-free STL render result has a view named exactly
`"front"` holding a buffer, `render` selects the front buffer — it is the
value handed to the write phase, and whenever the OS write goes through
(the write is now fallible, `FS.writeFile` models `IsADirectoryError`),
success is reported and exactly the front buffer's bytes are what gets
written — wherever `"front"` occurs in the mapping and whatever the other
views hold.  (An `io.BytesIO` buffer is always truthy, so every buffer
counts as non-empty to the script.) -/
theorem stl_front_view_selected
    (pm : ProcessModel) (R : Renderers) (fs : FS) (b : List Nat)
    (hext : pyExtOf pm.model_path = ".stl")
    (herr : alookup "error" (R.process_stl pm.model_path) = none)
    (hfront : alookup "front" (R.process_stl pm.model_path) = some (.buffer b)) :
    pm.render R fs = pm.finishWrite (.buffer b) fs ∧
    ∀ fs2, fs.writeFile pm.output_dir b = some fs2 →
      pm.render R fs = some (true, ["Thumbnail saved to " ++ pm.output_dir], fs2) := by
  have h1 : pm.render R fs = pm.finishWrite (.buffer b) fs := by
    simp [ProcessModel.render, ProcessModel.selectImage, hext, herr, stlSelect, hfront,
      PyVal.truthy]
  refine ⟨h1, fun fs2 hw => ?_⟩
  rw [h1]
  simp [ProcessModel.finishWrite, hw]

/-- Concrete check of claim C2: `"front"` sits in the middle of the mapping,
after another falsy view and before another truthy view, and is still the
buffer written. -/
theorem stl_front_view_selected_concrete :
    pyExtOf "m/c.stl" = ".stl" ∧
    alookup "error" [("side", PyVal.pyNone), ("front", PyVal.buffer [7]),
      ("back", PyVal.buffer [8])] = none ∧
    alookup "front" [("side", PyVal.pyNone), ("front", PyVal.buffer [7]),
      ("back", PyVal.buffer [8])] = some (PyVal.buffer [7]) ∧
    FS.writeFile ⟨[], []⟩ "m/thumbnails/c.png" [7] =
      some ⟨[("m/thumbnails/c.png", [7])], []⟩ ∧
    ((⟨"m/c.stl", "m", "c", "m/thumbnails", "m/thumbnails/c.png"⟩ : ProcessModel).render
        ⟨fun _ => .pyNone, fun _ => .pyNone,
          fun _ => [("side", .pyNone), ("front", .buffer [7]), ("back", .buffer [8])]⟩
        ⟨[], []⟩ =
      some (true, ["Thumbnail saved to m/thumbnails/c.png"],
        ⟨[("m/thumbnails/c.png", [7])], []⟩)) := by
  refine ⟨by decide, by decide, by decide, by decide, ?_⟩
  exact (stl_front_view_selected
    (⟨"m/c.stl", "m", "c", "m/thumbnails", "m/thumbnails/c.png"⟩ : ProcessModel)
    ⟨fun _ => .pyNone, fun _ => .pyNone,
      fun _ => [("side", .pyNone), ("front", .buffer [7]), ("back", .buffer [8])]⟩
    ⟨[], []⟩ [7] (by decide) (by decide) (by decide)).2
    ⟨[("m/thumbnails/c.png", [7])], []⟩ (by decide)

/-- Claim C3: when an error-free STL render result has no truthy `"front"`
view (absent, or present with a falsy value) but some truthy view, `render`
selects the first truthy value in the mapping's insertion order and hands it
to the buffer test and write; the selection depends only on the mapping
`process_stl` returned, so it is a deterministic function of that mapping. -/
theorem stl_first_nonempty_selected
    (pm : ProcessModel) (R : Renderers) (fs : FS) (v : PyVal)
    (hext : pyExtOf pm.model_path = ".stl")
    (herr : alookup "error" (R.process_stl pm.model_path) = none)
    (hfront : (alookup "front" (R.process_stl pm.model_path)).all
      (fun w => !w.truthy) = true)
    (hfind : ((R.process_stl pm.model_path).map Prod.snd).find? PyVal.truthy = some v) :
    pm.render R fs = pm.finishWrite v fs ∧
    ∀ R' : Renderers, R'.process_stl pm.model_path = R.process_stl pm.model_path →
      pm.render R' fs = pm.render R fs := by
  have hsel : stlSelect (R.process_stl pm.model_path) = v := by
    unfold stlSelect
    cases hl : alookup "front" (R.process_stl pm.model_path) with
    | none => simp [firstTruthy, hfind]
    | some w =>
      rw [hl] at hfront
      simp only [Option.all_some, Bool.not_eq_true'] at hfront
      simp [hfront, firstTruthy, hfind]
  constructor
  · simp [ProcessModel.render, ProcessModel.selectImage, hext, herr, hsel]
  · intro R' hR'
    simp [ProcessModel.render, ProcessModel.selectImage, hext, herr, hR', hsel]

/-- Concrete check of claim C3: no `"front"` view; the first truthy view
(`"left"`) is selected and written even though a later view (`"back"`) is
also truthy. -/
theorem stl_first_nonempty_selected_concrete :
    pyExtOf "m/c.stl" = ".stl" ∧
    ((⟨"m/c.stl", "m", "c", "m/thumbnails", "m/thumbnails/c.png"⟩ : ProcessModel).render
        ⟨fun _ => .pyNone, fun _ => .pyNone,
          fun _ => [("side", .pyNone), ("left", .buffer [5]), ("back", .buffer [8])]⟩
        ⟨[], []⟩ =
      (⟨"m/c.stl", "m", "c", "m/thumbnails", "m/thumbnails/c.png"⟩ :
        ProcessModel).finishWrite (.buffer [5]) ⟨[], []⟩) := by
  refine ⟨by decide, ?_⟩
  exact (stl_first_nonempty_selected
    (⟨"m/c.stl", "m", "c", "m/thumbnails", "m/thumbnails/c.png"⟩ : ProcessModel)
    ⟨fun _ => .pyNone, fun _ => .pyNone,
      fun _ => [("side", .pyNone), ("left", .buffer [5]), ("back", .buffer [8])]⟩
    ⟨[], []⟩ (.buffer [5]) (by decide) (by decide) (by decide) (by decide)).1

/-- Claim C4: when an error-free STL render result has only falsy view
values (and in particular no usable buffer), `render` returns `false` —
`image_bytes` stays `None`, so the final message is about `None` — and the
filesystem it returns is exactly the one it was given: no thumbnail is
written. -/
theorem stl_all_empty_fails
    (pm : ProcessModel) (R : Renderers) (fs : FS)
    (hext : pyExtOf pm.model_path = ".stl")
    (herr : alookup "error" (R.process_stl pm.model_path) = none)
    (hall : ((R.process_stl pm.model_path).map Prod.snd).all
      (fun w => !w.truthy) = true) :
    pm.render R fs =
      some (false, ["Model conversion failed or returned error: None"], fs) := by
  have hfirst : firstTruthy (R.process_stl pm.model_path) = .pyNone :=
    firstTruthy_eq_none hall
  have hsel : stlSelect (R.process_stl pm.model_path) = .pyNone := by
    unfold stlSelect
    cases hl : alookup "front" (R.process_stl pm.model_path) with
    | none => exact hfirst
    | some w =>
      have hw : w.truthy = false := by
        have hmem : w ∈ (R.process_stl pm.model_path).map Prod.snd := by
          have := List.mem_map_of_mem Prod.snd (alookup_mem hl)
          simpa using this
        have := List.all_eq_true.mp hall w hmem
        simpa using this
      simp [hw, hfirst]
  simp [ProcessModel.render, ProcessModel.selectImage, hext, herr, hsel,
    ProcessModel.finishWrite, pyToString]

/-- Concrete check of claim C4: every view falsy (`None` and an empty
string), the render fails with the `None` message and the filesystem is
untouched. -/
theorem stl_all_empty_fails_concrete :
    pyExtOf "m/c.stl" = ".stl" ∧
    ((⟨"m/c.stl", "m", "c", "m/thumbnails", "m/thumbnails/c.png"⟩ : ProcessModel).render
        ⟨fun _ => .pyNone, fun _ => .pyNone,
          fun _ => [("side", .pyNone), ("front", .pyStr "")]⟩
        ⟨[("m/c.stl", [3])], [("m", ["c.stl"])]⟩ =
      some (false, ["Model conversion failed or returned error: None"],
        ⟨[("m/c.stl", [3])], [("m", ["c.stl"])]⟩)) := by
  refine ⟨by decide, ?_⟩
  exact stl_all_empty_fails
    (⟨"m/c.stl", "m", "c", "m/thumbnails", "m/thumbnails/c.png"⟩ : ProcessModel)
    ⟨fun _ => .pyNone, fun _ => .pyNone,
      fun _ => [("side", .pyNone), ("front", .pyStr "")]⟩
    ⟨[("m/c.stl", [3])], [("m", ["c.stl"])]⟩ (by decide) (by decide) (by decide)

/-! ## Claims about the STL error descriptor -/

/-- Claim C5: when the STL render result carries an error descriptor (a
string stored under `"error"`), `render` returns `false`, the single line it
reports is that descriptor verbatim, and the filesystem it returns is
exactly the one it was given — no file is written. -/
theorem stl_error_descriptor_fails_verbatim
    (pm : ProcessModel) (R : Renderers) (fs : FS) (msg : String)
    (hext : pyExtOf pm.model_path = ".stl")
    (herr : alookup "error" (R.process_stl pm.model_path) = some (.pyStr msg)) :
    pm.render R fs = some (false, [msg], fs) := by
  simp [ProcessModel.render, ProcessModel.selectImage, hext, herr, pyToString]

/-- Concrete check of claim C5: the descriptor `mesh failed` is surfaced
verbatim and nothing is written. -/
theorem stl_error_descriptor_fails_verbatim_concrete :
    pyExtOf "m/c.stl" = ".stl" ∧
    ((⟨"m/c.stl", "m", "c", "m/thumbnails", "m/thumbnails/c.png"⟩ : ProcessModel).render
        ⟨fun _ => .pyNone, fun _ => .pyNone,
          fun _ => [("error", .pyStr "mesh failed")]⟩
        ⟨[("m/c.stl", [3])], []⟩ =
      some (false, ["mesh failed"], ⟨[("m/c.stl", [3])], []⟩)) := by
  refine ⟨by decide, ?_⟩
  exact stl_error_descriptor_fails_verbatim
    (⟨"m/c.stl", "m", "c", "m/thumbnails", "m/thumbnails/c.png"⟩ : ProcessModel)
    ⟨fun _ => .pyNone, fun _ => .pyNone, fun _ => [("error", .pyStr "mesh failed")]⟩
    ⟨[("m/c.stl", [3])], []⟩ "mesh failed" (by decide) (by decide)

/-- Claim C10: when the STL render result contains the key `"error"` at all,
`render` returns `false` and reports the value stored under `"error"`,
whatever else the mapping contains — the error check runs before any view
selection, so it takes precedence even over a truthy `"front"` view (the
concrete check below exercises exactly that mapping). -/
theorem stl_error_key_precedence
    (pm : ProcessModel) (R : Renderers) (fs : FS) (e : PyVal)
    (hext : pyExtOf pm.model_path = ".stl")
    (herr : alookup "error" (R.process_stl pm.model_path) = some e) :
    pm.render R fs = some (false, [pyToString e], fs) := by
  simp [ProcessModel.render, ProcessModel.selectImage, hext, herr]

/-- Concrete check of claim C10: the mapping holds both an `"error"` entry
and a truthy `"front"` buffer; the error wins, no buffer is selected, no
file is written. -/
theorem stl_error_key_precedence_concrete :
    alookup "error" [("front", PyVal.buffer [7]), ("error", PyVal.pyStr "boom"),
      ("back", PyVal.buffer [8])] = some (PyVal.pyStr "boom") ∧
    ((⟨"m/c.stl", "m", "c", "m/thumbnails", "m/thumbnails/c.png"⟩ : ProcessModel).render
        ⟨fun _ => .pyNone, fun _ => .pyNone,
          fun _ => [("front", .buffer [7]), ("error", .pyStr "boom"), ("back", .buffer [8])]⟩
        ⟨[("m/c.stl", [3])], []⟩ =
      some (false, ["boom"], ⟨[("m/c.stl", [3])], []⟩)) := by
  refine ⟨by decide, ?_⟩
  exact stl_error_key_precedence
    (⟨"m/c.stl", "m", "c", "m/thumbnails", "m/thumbnails/c.png"⟩ : ProcessModel)
    ⟨fun _ => .pyNone, fun _ => .pyNone,
      fun _ => [("front", .buffer [7]), ("error", .pyStr "boom"), ("back", .buffer [8])]⟩
    ⟨[("m/c.stl", [3])], []⟩ (.pyStr "boom") (by decide) (by decide)

/-! ## Claim about the buffer test before the write -/

/-- Claim C6: a thumbnail is written only when the value the dispatch phase
selected is an `io.BytesIO` buffer.  If the selected value is anything else
(`None`, an error string, a raw `bytes` object, ...), `render` returns
`false`, reports the conversion-failure message, and returns the filesystem
it was given unchanged; if it is a buffer, the buffer's bytes are written to
`output_dir` and `render` returns `true` whenever the OS write goes through,
while a failing `open(..., "wb")` (modelled by `FS.writeFile` returning
`none`) propagates as an uncaught exception. -/
theorem write_only_for_byte_buffer
    (pm : ProcessModel) (R : Renderers) (fs : FS) (v : PyVal)
    (hsel : pm.selectImage R fs = .selected v) :
    ((∀ b, v ≠ .buffer b) →
      pm.render R fs =
        some (false, ["Model conversion failed or returned error: " ++ pyToString v], fs)) ∧
    (∀ b, v = .buffer b →
      (∀ fs2, fs.writeFile pm.output_dir b = some fs2 →
        pm.render R fs = some (true, ["Thumbnail saved to " ++ pm.output_dir], fs2)) ∧
      (fs.writeFile pm.output_dir b = none → pm.render R fs = none)) := by
  constructor
  · intro hnb
    cases v with
    | buffer b => exact absurd rfl (hnb b)
    | pyNone => simp [ProcessModel.render, hsel, ProcessModel.finishWrite]
    | pyStr s => simp [ProcessModel.render, hsel, ProcessModel.finishWrite]
    | pyBytes b => simp [ProcessModel.render, hsel, ProcessModel.finishWrite]
  · intro b hb
    subst hb
    constructor
    · intro fs2 hw
      simp [ProcessModel.render, hsel, ProcessModel.finishWrite, hw]
    · intro hw
      simp [ProcessModel.render, hsel, ProcessModel.finishWrite, hw]

/-- Concrete check of claim C6: an OBJ renderer that returns the string
`"oops"` instead of a buffer makes `render` fail without writing, on a
filesystem that stays exactly as it was. -/
theorem write_only_for_byte_buffer_concrete :
    ((⟨"m/a.obj", "m", "a", "m/thumbnails", "m/thumbnails/a.png"⟩ : ProcessModel).selectImage
        ⟨fun _ => .pyStr "oops", fun _ => .pyNone, fun _ => []⟩
        ⟨[("m/a.obj", [1])], []⟩ = .selected (.pyStr "oops")) ∧
    ((⟨"m/a.obj", "m", "a", "m/thumbnails", "m/thumbnails/a.png"⟩ : ProcessModel).render
        ⟨fun _ => .pyStr "oops", fun _ => .pyNone, fun _ => []⟩
        ⟨[("m/a.obj", [1])], []⟩ =
      some (false, ["Model conversion failed or returned error: oops"],
        ⟨[("m/a.obj", [1])], []⟩)) := by
  refine ⟨by decide, ?_⟩
  have h := (write_only_for_byte_buffer
    (⟨"m/a.obj", "m", "a", "m/thumbnails", "m/thumbnails/a.png"⟩ : ProcessModel)
    ⟨fun _ => .pyStr "oops", fun _ => .pyNone, fun _ => []⟩
    ⟨[("m/a.obj", [1])], []⟩ (.pyStr "oops") (by decide)).1
    (by intro b hb; exact PyVal.noConfusion hb)
  simpa [pyToString] using h

/-! ## Helper lemmas: association lists and filesystem operations -/

theorem alookup_append {β : Type} (k : String) (l1 l2 : List (String × β)) :
    alookup k (l1 ++ l2) = (alookup k l1).or (alookup k l2) := by
  induction l1 with
  | nil => simp [alookup]
  | cons kv rest ih =>
    obtain ⟨q, v⟩ := kv
    by_cases hq : q = k
    · simp [alookup, hq]
    · simp [alookup, hq, ih]

theorem alookup_writeEntries_self (p : String) (c : List Nat) (l : List (String × List Nat)) :
    alookup p (writeEntries p c l) = some c := by
  induction l with
  | nil => simp [writeEntries, alookup]
  | cons kv rest ih =>
    obtain ⟨q, v⟩ := kv
    by_cases hq : q = p
    · simp [writeEntries, hq, alookup]
    · simp [writeEntries, hq, alookup, ih]

theorem alookup_writeEntries_ne (p : String) (c : List Nat) (l : List (String × List Nat))
    (q : String) (h : q ≠ p) : alookup q (writeEntries p c l) = alookup q l := by
  induction l with
  | nil =>
    simp only [writeEntries, alookup]
    rw [if_neg (fun hh => h hh.symm)]
  | cons kv rest ih =>
    obtain ⟨k, v⟩ := kv
    by_cases hk : k = p
    · subst hk
      simp only [writeEntries, if_pos rfl, alookup]
      rw [if_neg (fun hh => h hh.symm), if_neg (fun hh => h hh.symm)]
    · simp only [writeEntries, if_neg hk, alookup]
      by_cases hkq : k = q
      · rw [if_pos hkq, if_pos hkq]
      · rw [if_neg hkq, if_neg hkq, ih]

theorem writeEntries_idem (p : String) (c : List Nat) (l : List (String × List Nat)) :
    writeEntries p c (writeEntries p c l) = writeEntries p c l := by
  induction l with
  | nil => simp [writeEntries]
  | cons kv rest ih =>
    obtain ⟨q, v⟩ := kv
    by_cases hq : q = p
    · simp [writeEntries, hq]
    · simp [writeEntries, hq, ih]

theorem makedirs_of_isdir (fs : FS) (d : String) (h : fs.isdir d = true) :
    fs.makedirs d = some fs := by
  unfold FS.makedirs
  rw [if_pos h]

theorem makedirs_some_elim (fs fs1 : FS) (d : String) (h : fs.makedirs d = some fs1) :
    fs1.files = fs.files ∧ fs1.isdir d = true := by
  unfold FS.makedirs at h
  by_cases h1 : fs.isdir d = true
  · rw [if_pos h1] at h
    cases h
    exact ⟨rfl, h1⟩
  · rw [if_neg h1] at h
    by_cases h2 : fs.isfile d = true
    · rw [if_pos h2] at h
      cases h
    · rw [if_neg h2] at h
      cases h
      refine ⟨rfl, ?_⟩
      simp only [FS.isdir, alookup_append]
      cases hl : alookup d fs.dirs <;> simp [alookup]

theorem makedirs_none_iff (fs : FS) (d : String) :
    fs.makedirs d = none ↔ (fs.isdir d = false ∧ fs.isfile d = true) := by
  unfold FS.makedirs
  by_cases h1 : fs.isdir d = true
  · simp [h1]
  · by_cases h2 : fs.isfile d = true
    · simp [h1, h2]
    · simp [h1, h2]

theorem writeFile_some_elim (fs fs2 : FS) (p : String) (c : List Nat)
    (h : fs.writeFile p c = some fs2) :
    fs2.files = writeEntries p c fs.files ∧ fs2.dirs = fs.dirs := by
  unfold FS.writeFile at h
  by_cases h1 : fs.isdir p = true
  · rw [if_pos h1] at h
    cases h
  · rw [if_neg h1] at h
    cases h
    exact ⟨rfl, rfl⟩

theorem writeFile_some_not_isdir (fs fs2 : FS) (p : String) (c : List Nat)
    (h : fs.writeFile p c = some fs2) : fs.isdir p = false := by
  unfold FS.writeFile at h
  by_cases h1 : fs.isdir p = true
  · rw [if_pos h1] at h
    cases h
  · simp at h1
    exact h1

theorem writeFile_of_not_isdir (fs : FS) (p : String) (c : List Nat)
    (h : fs.isdir p = false) :
    fs.writeFile p c = some ⟨writeEntries p c fs.files, fs.dirs⟩ := by
  unfold FS.writeFile
  rw [if_neg (by simp [h])]

/-! ## Helper lemmas: effect of `init` and `render` on the filesystem -/

/-- Destructor for a successful `__init__`: the constructed object is the
record of derived paths, and the filesystem is the one `makedirs` yields. -/
theorem init_some_elim (p : String) (fs : FS) (pm : ProcessModel) (fs1 : FS)
    (h : ProcessModel.init p fs = some (pm, fs1)) :
    pm = ⟨p, pyDirname p, (pySplitext (pyBasename p)).1,
      pyJoin (pyDirname p) "thumbnails",
      pyJoin (pyJoin (pyDirname p) "thumbnails")
        ((pySplitext (pyBasename p)).1 ++ ".png")⟩ ∧
    fs.makedirs (pyJoin (pyDirname p) "thumbnails") = some fs1 := by
  simp only [ProcessModel.init] at h
  cases hm : fs.makedirs (pyJoin (pyDirname p) "thumbnails") with
  | none =>
    rw [hm] at h
    cases h
  | some fsx =>
    rw [hm] at h
    injection h with h2
    injection h2 with hpm hfs
    exact ⟨hpm.symm, by rw [hfs]⟩

theorem init_files (p : String) (fs : FS) (pm : ProcessModel) (fs1 : FS)
    (h : ProcessModel.init p fs = some (pm, fs1)) : fs1.files = fs.files :=
  (makedirs_some_elim fs fs1 _ (init_some_elim p fs pm fs1 h).2).1

theorem init_model_path (p : String) (fs : FS) (pm : ProcessModel) (fs1 : FS)
    (h : ProcessModel.init p fs = some (pm, fs1)) : pm.model_path = p := by
  rw [(init_some_elim p fs pm fs1 h).1]

/-- Whatever `render` returns, it has changed no file other than the one at
`output_dir`, and no directory at all. -/
theorem render_files_outside (pm : ProcessModel) (R : Renderers) (fs : FS)
    (r : Bool × List String × FS) (h : pm.render R fs = some r) :
    (∀ q, q ≠ pm.output_dir → alookup q r.2.2.files = alookup q fs.files) ∧
    r.2.2.dirs = fs.dirs := by
  unfold ProcessModel.render at h
  cases hsel : pm.selectImage R fs with
  | earlyFail msgs =>
    rw [hsel] at h
    cases h
    exact ⟨fun q _ => rfl, rfl⟩
  | fileMissing =>
    rw [hsel] at h
    cases h
  | selected v =>
    rw [hsel] at h
    cases v with
    | buffer b =>
      simp only [ProcessModel.finishWrite] at h
      cases hw : fs.writeFile pm.output_dir b with
      | none =>
        rw [hw] at h
        cases h
      | some fs2 =>
        rw [hw] at h
        cases h
        obtain ⟨hf, hd⟩ := writeFile_some_elim fs fs2 _ _ hw
        refine ⟨fun q hq => ?_, hd⟩
        rw [hf]
        exact alookup_writeEntries_ne _ _ _ _ hq
    | pyNone =>
      simp only [ProcessModel.finishWrite] at h
      cases h
      exact ⟨fun q _ => rfl, rfl⟩
    | pyStr s =>
      simp only [ProcessModel.finishWrite] at h
      cases h
      exact ⟨fun q _ => rfl, rfl⟩
    | pyBytes b =>
      simp only [ProcessModel.finishWrite] at h
      cases h
      exact ⟨fun q _ => rfl, rfl⟩

/-! ## Helper lemmas: the posixpath functions on decomposed paths -/

theorem data_mk (l : List Char) : (⟨l⟩ : String).data = l := rfl

theorem pyRfind_of_not_mem {c : Char} {l : List Char} (h : c ∉ l) : pyRfind c l = -1 := by
  unfold pyRfind
  have hnone : l.reverse.findIdx? (· == c) = none := by
    rw [List.findIdx?_eq_none_iff]
    intro x hx
    rw [beq_eq_false_iff_ne]
    intro he
    subst he
    exact h (List.mem_reverse.mp hx)
  rw [hnone]

/-- `rfind` at the last occurrence: if `c` does not occur in `B`, the last
occurrence of `c` in `A ++ c :: B` sits at index `A.length`. -/
theorem pyRfind_last (A B : List Char) (c : Char) (h : c ∉ B) :
    pyRfind c (A ++ c :: B) = (A.length : Int) := by
  unfold pyRfind
  have h1 : (A ++ c :: B).reverse = B.reverse ++ c :: A.reverse := by
    rw [List.reverse_append, List.reverse_cons, List.append_assoc]
    rfl
  rw [h1]
  have h2 : B.reverse.findIdx? (· == c) = none := by
    rw [List.findIdx?_eq_none_iff]
    intro x hx
    rw [beq_eq_false_iff_ne]
    intro he
    subst he
    exact h (List.mem_reverse.mp hx)
  rw [List.findIdx?_append, h2, List.findIdx?_cons, if_pos (by simp)]
  simp only [Option.map_some', List.length_reverse, Option.none_or]
  simp only [List.length_append, List.length_cons]
  omega

theorem exists_last_split {c : Char} {l : List Char} (h : c ∈ l) :
    ∃ A B, l = A ++ c :: B ∧ c ∉ B := by
  induction l with
  | nil => cases h
  | cons x xs ih =>
    by_cases hx : c ∈ xs
    · obtain ⟨A, B, hAB, hB⟩ := ih hx
      exact ⟨x :: A, B, by rw [hAB]; rfl, hB⟩
    · have hcx : c = x := by
        rcases List.mem_cons.mp h with h1 | h2
        · exact h1
        · exact absurd h2 hx
      subst hcx
      exact ⟨[], xs, rfl, hx⟩

theorem pyBasename_split (A B : List Char) (h : '/' ∉ B) :
    pyBasename ⟨A ++ '/' :: B⟩ = ⟨B⟩ := by
  unfold pyBasename
  simp only [data_mk]
  rw [pyRfind_last A B '/' h]
  have h1 : ((A.length : Int) + 1).toNat = A.length + 1 := by omega
  rw [h1]
  have h2 : A ++ '/' :: B = (A ++ ['/']) ++ B := by simp
  have h3 : A.length + 1 = (A ++ ['/']).length := by simp
  rw [h2, h3, List.drop_left]

theorem pyDirname_split (A B : List Char) (hB : '/' ∉ B) (hA : A ≠ [])
    (hAl : A.getLast? ≠ some '/') : pyDirname ⟨A ++ '/' :: B⟩ = ⟨A⟩ := by
  unfold pyDirname
  simp only [data_mk]
  rw [pyRfind_last A B '/' hB]
  have h1 : ((A.length : Int) + 1).toNat = A.length + 1 := by omega
  rw [h1]
  have h2 : (A ++ '/' :: B).take (A.length + 1) = A ++ ['/'] := by
    have ha : A ++ '/' :: B = (A ++ ['/']) ++ B := by simp
    have hb : A.length + 1 = (A ++ ['/']).length := by simp
    rw [ha, hb, List.take_left]
  rw [h2]
  obtain ⟨a, ha⟩ : ∃ a, A.getLast? = some a := by
    cases hl : A.getLast? with
    | none => exact absurd (List.getLast?_eq_none_iff.mp hl) hA
    | some a => exact ⟨a, rfl⟩
  have hane : a ≠ '/' := fun hh => hAl (hh ▸ ha)
  have hmem : a ∈ A := List.mem_of_getLast?_eq_some ha
  rw [if_neg ?hcond]
  case hcond =>
    simp only [Bool.or_eq_true, not_or]
    constructor
    · rw [List.isEmpty_iff]
      simp
    · intro hall
      have := List.all_eq_true.mp hall a (List.mem_append_left _ hmem)
      exact hane (by simpa using this)
  have hgoal : dropTrailingSlashes (A ++ ['/']) = A := by
    unfold dropTrailingSlashes
    rw [List.reverse_append]
    have hr1 : (['/'] : List Char).reverse = ['/'] := rfl
    rw [hr1]
    have hr2 : (['/'] : List Char) ++ A.reverse = '/' :: A.reverse := rfl
    rw [hr2, List.dropWhile_cons_of_pos (by simp)]
    obtain ⟨t, ht⟩ : ∃ t, A.reverse = a :: t := by
      cases hrv : A.reverse with
      | nil =>
        have : A = [] := by simpa using congrArg List.reverse hrv
        exact absurd this hA
      | cons x t =>
        have hx : A.reverse.head? = some x := by rw [hrv]; rfl
        rw [List.head?_reverse] at hx
        rw [ha] at hx
        cases hx
        exact ⟨t, rfl⟩
    rw [ht, List.dropWhile_cons_of_neg (by simp [hane])]
    rw [← ht, List.reverse_reverse]
  rw [hgoal]

theorem pyJoin_eq (a b : String) (hb : b.data.head? ≠ some '/')
    (ha : a.data ≠ []) (hal : a.data.getLast? ≠ some '/') :
    pyJoin a b = ⟨a.data ++ '/' :: b.data⟩ := by
  unfold pyJoin
  rw [if_neg hb, if_neg (fun h => h.elim ha hal)]

theorem pySplitextL_fst_subset {l : List Char} {c : Char}
    (h : c ∈ (pySplitextL l).1) : c ∈ l := by
  unfold pySplitextL at h
  simp only [] at h
  split at h
  · split at h
    · exact List.mem_of_mem_take h
    · exact h
  · exact h

/-! ## Helper lemmas: the shape of the paths `__init__` computes -/

theorem head_ne_slash_of_not_mem {l : List Char} (h : '/' ∉ l) :
    l.head? ≠ some '/' := by
  intro hh
  exact h (List.mem_of_mem_head? (by rw [hh]; rfl))

/-- For a model file `path/f` (with `f` a plain entry name and `path` a
directory path with no trailing slash), the derived paths `__init__`
computes are: `model_dir = path`, `model_name = ` the root `splitext` gives
for `f`, `thumbnails_dir = path/thumbnails` and
`output_dir = path/thumbnails/<model_name>.png`. -/
theorem path_shapes (path f : String)
    (hp1 : path.data ≠ []) (hp2 : path.data.getLast? ≠ some '/')
    (hf : '/' ∉ f.data) :
    pyDirname (pyJoin path f) = path ∧
    (pySplitext (pyBasename (pyJoin path f))).1 = ⟨(pySplitextL f.data).1⟩ ∧
    pyJoin (pyDirname (pyJoin path f)) "thumbnails" =
      ⟨path.data ++ '/' :: "thumbnails".data⟩ ∧
    pyJoin (pyJoin (pyDirname (pyJoin path f)) "thumbnails")
      ((pySplitext (pyBasename (pyJoin path f))).1 ++ ".png") =
      ⟨path.data ++ '/' :: ("thumbnails".data ++ '/' ::
        ((pySplitextL f.data).1 ++ ".png".data))⟩ := by
  have hjoin : pyJoin path f = ⟨path.data ++ '/' :: f.data⟩ :=
    pyJoin_eq path f (head_ne_slash_of_not_mem hf) hp1 hp2
  have hdir : pyDirname (pyJoin path f) = path := by
    rw [hjoin]
    exact pyDirname_split path.data f.data hf hp1 hp2
  have hbase : pyBasename (pyJoin path f) = ⟨f.data⟩ := by
    rw [hjoin]
    exact pyBasename_split path.data f.data hf
  have hname : (pySplitext (pyBasename (pyJoin path f))).1 = ⟨(pySplitextL f.data).1⟩ := by
    rw [hbase]
    rfl
  have hthumbs : pyJoin (pyDirname (pyJoin path f)) "thumbnails" =
      ⟨path.data ++ '/' :: "thumbnails".data⟩ := by
    rw [hdir]
    exact pyJoin_eq path "thumbnails" (by decide) hp1 hp2
  have hnmsub : ∀ c, c ∈ (pySplitextL f.data).1 → c ∈ f.data :=
    fun c hc => pySplitextL_fst_subset hc
  have houtname : ((⟨(pySplitextL f.data).1⟩ : String) ++ ".png").data =
      (pySplitextL f.data).1 ++ ".png".data := by
    rw [String.data_append]
  have hohead : ((⟨(pySplitextL f.data).1⟩ : String) ++ ".png").data.head? ≠ some '/' := by
    rw [houtname]
    cases hnm : (pySplitextL f.data).1 with
    | nil => decide
    | cons x t =>
      intro hh
      simp only [List.cons_append, List.head?_cons, Option.some.injEq] at hh
      subst hh
      exact hf (hnmsub _ (by rw [hnm]; exact List.mem_cons_self _ _))
  have hta : (⟨path.data ++ '/' :: "thumbnails".data⟩ : String).data ≠ [] := by
    simp [data_mk]
  have htl : (⟨path.data ++ '/' :: "thumbnails".data⟩ : String).data.getLast? ≠ some '/' := by
    simp only [data_mk]
    rw [List.getLast?_append]
    intro hh
    have hx : ('/' :: "thumbnails".data).getLast? = some 's' := by decide
    rw [hx] at hh
    simp at hh
  have hout : pyJoin (⟨path.data ++ '/' :: "thumbnails".data⟩ : String)
      ((⟨(pySplitextL f.data).1⟩ : String) ++ ".png") =
      ⟨path.data ++ '/' :: ("thumbnails".data ++ '/' ::
        ((pySplitextL f.data).1 ++ ".png".data))⟩ := by
    rw [pyJoin_eq _ _ hohead hta htl]
    apply congrArg String.mk
    simp only [data_mk, houtname]
    simp [List.append_assoc]
  refine ⟨hdir, hname, hthumbs, ?_⟩
  rw [hthumbs, hname]
  exact hout

/-- The thumbnail path computed for one direct entry of a directory is never
itself a direct entry of that directory: it has an extra `/` in it. -/
theorem output_ne_entry (path f g : String)
    (hp1 : path.data ≠ []) (hp2 : path.data.getLast? ≠ some '/')
    (hf : '/' ∉ f.data) (hg : '/' ∉ g.data) :
    pyJoin (pyJoin (pyDirname (pyJoin path f)) "thumbnails")
      ((pySplitext (pyBasename (pyJoin path f))).1 ++ ".png") ≠ pyJoin path g := by
  intro he
  have h1 := (path_shapes path f hp1 hp2 hf).2.2.2
  have h2 : pyJoin path g = ⟨path.data ++ '/' :: g.data⟩ :=
    pyJoin_eq path g (head_ne_slash_of_not_mem hg) hp1 hp2
  rw [h1, h2] at he
  have hd := congrArg String.data he
  simp only [data_mk] at hd
  have h3 := List.append_cancel_left hd
  have h4 : "thumbnails".data ++ '/' :: ((pySplitextL f.data).1 ++ ".png".data) = g.data := by
    injection h3
  apply hg
  rw [← h4]
  exact List.mem_append_right _ (List.mem_cons_self _ _)

/-! ## Claim about the write path and its idempotence -/

/-- Claim C7: when the dispatch phase of `render` selects a buffer and the
OS write goes through (the claim speaks of models "for which render
succeeds"), `render` writes that buffer's bytes verbatim to `output_dir`
(= `<model_dir>/thumbnails/<model_base_name>.png`, spelled out by the
fourth conjunct for a model path `P/F`), storing exactly those bytes
whatever the path held before (unconditional overwrite, second and third
conjuncts); and running `ProcessModel(p).render()` a second time with the
same renderer result constructs the same object over the same filesystem
(the thumbnails directory already exists, so the second `makedirs` cannot
raise), and — provably, since the first write succeeded — writes the same
bytes to the same single path with no error, leaving the file table exactly
as after the first call (last conjunct). -/
theorem render_writes_thumbnail_idempotent
    (p : String) (R : Renderers) (fs0 : FS) (b : List Nat)
    (pm : ProcessModel) (fs1 fsw : FS)
    (hinit : ProcessModel.init p fs0 = some (pm, fs1))
    (hsel : pm.selectImage R fs1 = .selected (.buffer b))
    (hwr : fs1.writeFile pm.output_dir b = some fsw) :
    pm.render R fs1 =
      some (true, ["Thumbnail saved to " ++ pm.output_dir], fsw) ∧
    fsw.files = writeEntries pm.output_dir b fs1.files ∧
    alookup pm.output_dir fsw.files = some b ∧
    (∀ P F, p.data = P ++ '/' :: F → '/' ∉ F → P ≠ [] → P.getLast? ≠ some '/' →
      pm.output_dir.data = P ++ '/' :: ("thumbnails".data ++ '/' ::
        ((pySplitextL F).1 ++ ".png".data))) ∧
    ProcessModel.init p fsw = some (pm, fsw) ∧
    (pm.selectImage R fsw = .selected (.buffer b) →
      ∃ fsw2, pm.render R fsw =
          some (true, ["Thumbnail saved to " ++ pm.output_dir], fsw2) ∧
        fsw2.files = fsw.files) := by
  obtain ⟨hpm, hmk⟩ := init_some_elim p fs0 pm fs1 hinit
  obtain ⟨hwf, hwd⟩ := writeFile_some_elim fs1 fsw _ _ hwr
  refine ⟨?_, hwf, ?_, ?_, ?_, ?_⟩
  · simp [ProcessModel.render, hsel, ProcessModel.finishWrite, hwr]
  · rw [hwf]
    exact alookup_writeEntries_self _ _ _
  · intro P F hdata hF hP hPl
    have hp' : p = pyJoin ⟨P⟩ ⟨F⟩ := by
      rw [pyJoin_eq ⟨P⟩ ⟨F⟩ (head_ne_slash_of_not_mem hF) hP hPl]
      exact String.ext hdata
    have hsh := (path_shapes ⟨P⟩ ⟨F⟩ hP hPl hF).2.2.2
    rw [← hp'] at hsh
    rw [hpm]
    show (pyJoin (pyJoin (pyDirname p) "thumbnails")
      ((pySplitext (pyBasename p)).1 ++ ".png")).data = _
    rw [hsh]
  · have hisw : fsw.isdir (pyJoin (pyDirname p) "thumbnails") = true := by
      have h1 := (makedirs_some_elim fs0 fs1 _ hmk).2
      simp only [FS.isdir] at h1 ⊢
      rw [hwd]
      exact h1
    simp only [ProcessModel.init]
    rw [makedirs_of_isdir _ _ hisw]
    rw [hpm]
  · intro hsel2
    have hisw2 : fsw.isdir pm.output_dir = false := by
      have h1 := writeFile_some_not_isdir fs1 fsw _ _ hwr
      simp only [FS.isdir] at h1 ⊢
      rw [hwd]
      exact h1
    have hwr2 : fsw.writeFile pm.output_dir b =
        some ⟨writeEntries pm.output_dir b fsw.files, fsw.dirs⟩ :=
      writeFile_of_not_isdir fsw _ _ hisw2
    refine ⟨⟨writeEntries pm.output_dir b fsw.files, fsw.dirs⟩, ?_, ?_⟩
    · simp [ProcessModel.render, hsel2, ProcessModel.finishWrite, hwr2]
    · show writeEntries pm.output_dir b fsw.files = fsw.files
      rw [hwf]
      exact writeEntries_idem _ _ _

/-- Concrete check of claim C7: an OBJ model at `m/a.obj` whose renderer
yields the buffer `[9]`; the first call writes `m/thumbnails/a.png`, a
second `ProcessModel(p)` construction over the written filesystem finds the
thumbnails directory already present and yields the same object and
filesystem, and the second render leaves the file table unchanged. -/
theorem render_writes_thumbnail_idempotent_concrete :
    (ProcessModel.init "m/a.obj" ⟨[("m/a.obj", [1])], [("m", ["a.obj"])]⟩ =
      some ((⟨"m/a.obj", "m", "a", "m/thumbnails", "m/thumbnails/a.png"⟩ : ProcessModel),
        ⟨[("m/a.obj", [1])], [("m", ["a.obj"]), ("m/thumbnails", [])]⟩)) ∧
    ((⟨"m/a.obj", "m", "a", "m/thumbnails", "m/thumbnails/a.png"⟩ : ProcessModel).render
      ⟨fun _ => .buffer [9], fun _ => .pyNone, fun _ => []⟩
      ⟨[("m/a.obj", [1])], [("m", ["a.obj"]), ("m/thumbnails", [])]⟩ =
        some (true, ["Thumbnail saved to m/thumbnails/a.png"],
          ⟨[("m/a.obj", [1]), ("m/thumbnails/a.png", [9])],
            [("m", ["a.obj"]), ("m/thumbnails", [])]⟩)) ∧
    (ProcessModel.init "m/a.obj"
      ⟨[("m/a.obj", [1]), ("m/thumbnails/a.png", [9])],
        [("m", ["a.obj"]), ("m/thumbnails", [])]⟩ =
      some ((⟨"m/a.obj", "m", "a", "m/thumbnails", "m/thumbnails/a.png"⟩ : ProcessModel),
        ⟨[("m/a.obj", [1]), ("m/thumbnails/a.png", [9])],
          [("m", ["a.obj"]), ("m/thumbnails", [])]⟩)) ∧
    ("m/a.obj".data = "m".data ++ '/' :: "a.obj".data ∧
      (⟨"m/a.obj", "m", "a", "m/thumbnails", "m/thumbnails/a.png"⟩ :
        ProcessModel).output_dir.data =
        "m".data ++ '/' :: ("thumbnails".data ++ '/' ::
          ((pySplitextL "a.obj".data).1 ++ ".png".data))) := by
  have h := render_writes_thumbnail_idempotent "m/a.obj"
    ⟨fun _ => .buffer [9], fun _ => .pyNone, fun _ => []⟩
    ⟨[("m/a.obj", [1])], [("m", ["a.obj"])]⟩ [9]
    (⟨"m/a.obj", "m", "a", "m/thumbnails", "m/thumbnails/a.png"⟩ : ProcessModel)
    ⟨[("m/a.obj", [1])], [("m", ["a.obj"]), ("m/thumbnails", [])]⟩
    ⟨[("m/a.obj", [1]), ("m/thumbnails/a.png", [9])],
      [("m", ["a.obj"]), ("m/thumbnails", [])]⟩
    (by decide) (by decide) (by decide)
  refine ⟨by decide, ?_, ?_, by decide, ?_⟩
  · exact h.1
  · exact h.2.2.2.2.1
  · exact h.2.2.2.1 "m".data "a.obj".data (by decide) (by decide) (by decide) (by decide)

/-! ## The PathWalker claims -/

/-- Clearly-named spec-side definition (section 4.1 of the spec): the
candidate sequence of a directory walk — the direct entries of the listing
that are regular files with a supported extension, in listing order. -/
def specCandidates (fs : FS) (path : String) : List String :=
  (fs.listdir path).filter
    (fun fname => fs.isfile (pyJoin path fname) &&
      SUPPORTED_EXTS.contains (pyExtOf fname))

/-- Clearly-named spec-side definition (section 2 of the spec): process an
already-filtered candidate sequence, passing each candidate unconditionally
to `ProcessModel(...).render()`. -/
def specRunCandidates (dirPath : String) (R : Renderers) :
    List String → FS → List String → Option (FS × List String)
  | [], fs, msgs => some (fs, msgs)
  | fname :: rest, fs, msgs =>
    let fpath := pyJoin dirPath fname
    match ProcessModel.init fpath fs with
    | none => none
    | some ir =>
      match ir.1.render R ir.2 with
      | none => none
      | some (_, ms, fs2) =>
        specRunCandidates dirPath R rest fs2 (msgs ++ ("Processing file: " ++ fpath) :: ms)

/-- The inline filtering of `walkLoop` agrees with filtering the whole entry
list against the filesystem as it was when the listing was taken: a render
of one candidate only writes under `path/thumbnails/`, which is never a
direct entry of `path`, so the later `os.path.isfile` tests are
undisturbed. -/
theorem walkLoop_eq_spec (path : String) (R : Renderers) (fs0 : FS)
    (hp1 : path.data ≠ []) (hp2 : path.data.getLast? ≠ some '/')
    (entries : List String) :
    ∀ (fs : FS) (msgs : List String),
      (∀ g : String, '/' ∉ g.data →
        alookup (pyJoin path g) fs.files = alookup (pyJoin path g) fs0.files) →
      (∀ f ∈ entries, '/' ∉ f.data) →
      walkLoop path R entries fs msgs =
        specRunCandidates path R
          (entries.filter (fun fname => fs0.isfile (pyJoin path fname) &&
            SUPPORTED_EXTS.contains (pyExtOf fname))) fs msgs := by
  induction entries with
  | nil =>
    intro fs msgs _ _
    rfl
  | cons fname rest ih =>
    intro fs msgs hagree hents
    have hf : '/' ∉ fname.data := hents fname (List.mem_cons_self _ _)
    have hiso : fs.isfile (pyJoin path fname) = fs0.isfile (pyJoin path fname) := by
      simp only [FS.isfile]
      rw [hagree fname hf]
    simp only [walkLoop, List.filter_cons]
    rw [hiso]
    by_cases hcond : (fs0.isfile (pyJoin path fname) &&
        SUPPORTED_EXTS.contains (pyExtOf fname)) = true
    · rw [if_pos hcond, if_pos hcond]
      simp only [specRunCandidates]
      cases hi : ProcessModel.init (pyJoin path fname) fs with
      | none => rfl
      | some ir =>
        cases hr : ir.1.render R ir.2 with
        | none => simp only [hr]
        | some val =>
          obtain ⟨ok, ms, fs2⟩ := val
          simp only [hr]
          apply ih
          · intro g hg
            obtain ⟨hpm, hmk⟩ := init_some_elim (pyJoin path fname) fs ir.1 ir.2 hi
            have hout := render_files_outside _ R _ _ hr
            have hne : pyJoin path g ≠ ir.1.output_dir := by
              rw [hpm]
              exact fun hh => (output_ne_entry path fname g hp1 hp2 hf hg) hh.symm
            calc alookup (pyJoin path g) fs2.files
                = alookup (pyJoin path g) ir.2.files := hout.1 _ hne
              _ = alookup (pyJoin path g) fs.files := by
                  rw [(makedirs_some_elim fs ir.2 _ hmk).1]
              _ = alookup (pyJoin path g) fs0.files := hagree g hg
          · intro f hfm
            exact hents f (List.mem_cons_of_mem _ hfm)
    · rw [if_neg hcond, if_neg hcond]
      exact ih fs msgs hagree (fun f hfm => hents f (List.mem_cons_of_mem _ hfm))

/-- Claim C8: on a directory, `process_path` behaves exactly as the spec's
two-phase PathWalker: first filter the direct entries of the listing down to
the regular files with a supported (case-insensitively compared) extension,
preserving the listing order, then process exactly those candidates.  Files
with unsupported extensions and subdirectories are excluded, and no entry of
any subdirectory's listing is ever consulted. -/
theorem walk_filters_supported_direct_files
    (path : String) (R : Renderers) (fs : FS)
    (hdir : fs.isdir path = true)
    (hp1 : path.data ≠ []) (hp2 : path.data.getLast? ≠ some '/')
    (hentries : ∀ f ∈ fs.listdir path, '/' ∉ f.data) :
    process_path path R fs =
      specRunCandidates path R (specCandidates fs path) fs
        ["Processing folder: " ++ path] := by
  unfold process_path
  rw [if_pos hdir]
  exact walkLoop_eq_spec path R fs hp1 hp2 (fs.listdir path) fs _
    (fun g _ => rfl) hentries

/-- A concrete directory for the walk claims: one file of each supported
extension (one with an uppercase extension), one unsupported `.jpg` file,
and one subdirectory whose own listing contains a model file. -/
def fsW8 : FS :=
  ⟨[("m/a.OBJ", [0]), ("m/b.glb", [1]), ("m/c.stl", [2]), ("m/x.jpg", [3])],
    [("m", ["a.OBJ", "b.glb", "c.stl", "x.jpg", "sub"]), ("m/sub", ["deep.obj"])]⟩

/-- A concrete renderer assembly for the walk claims. -/
def RW8 : Renderers :=
  ⟨fun _ => .buffer [9], fun _ => .buffer [8], fun _ => [("front", .buffer [7])]⟩

/-- Concrete check of claim C8: of the five direct entries of `m`, the
candidate sequence is exactly the three supported files in listing order —
`x.jpg` and the subdirectory `sub` (and `sub`'s own entry `deep.obj`) are
excluded — and the walk equals the spec-side two-phase run. -/
theorem walk_filters_supported_direct_files_concrete :
    fsW8.isdir "m" = true ∧
    specCandidates fsW8 "m" = ["a.OBJ", "b.glb", "c.stl"] ∧
    process_path "m" RW8 fsW8 =
      specRunCandidates "m" RW8 (specCandidates fsW8 "m") fsW8
        ["Processing folder: m"] := by
  refine ⟨by decide, by decide, ?_⟩
  exact walk_filters_supported_direct_files "m" RW8 fsW8
    (by decide) (by decide) (by decide) (by decide)

/-- A concrete directory in which the walk aborts: `m` holds two supported
model files, but also a regular file named `thumbnails`, so the very first
candidate's `os.makedirs(\"m/thumbnails\", exist_ok=True)` raises
`FileExistsError`. -/
def fsBad : FS :=
  ⟨[("m/a.obj", [1]), ("m/b.obj", [2]), ("m/thumbnails", [0])],
    [("m", ["a.obj", "b.obj", "thumbnails"])]⟩

/-- Counterexample to claim C9 as stated: in `fsBad` the first candidate
`a.obj` hits an I/O failure (`os.makedirs` raising because `m/thumbnails`
exists as a regular file), and that failure is not converted into a local
boolean `false` — it propagates as an uncaught exception (`none`) that
aborts the whole walk, although the sibling `m/b.obj` is a supported,
existing model file later in the listing that should still have been
processed. -/
theorem walk_fatal_counterexample :
    fsBad.isdir "m" = true ∧
    fsBad.isfile (pyJoin "m" "a.obj") = true ∧
    fsBad.isfile (pyJoin "m" "b.obj") = true ∧
    SUPPORTED_EXTS.contains (pyExtOf "b.obj") = true ∧
    process_path "m" RW8 fsBad = none := by
  decide

/-- Claim C9 as amended: during a directory walk, the failures the script
itself detects — unsupported format, a renderer error descriptor, an
empty or non-buffer selection — are reported and converted into a per-model
boolean result, and the walk then continues with the remaining sibling
candidates whatever that boolean was (first conjunct: any `render` that
returns a boolean, `false` included, lets `walkLoop` proceed with `rest`).
I/O failures, however, are not recovered: the script has no `try`/`except`,
so an exception raised by `os.makedirs` in the constructor (second
conjunct) or by the `.glb` read / thumbnail write inside `render` (third
conjunct) aborts the walk with no result, and the remaining siblings are
never processed. -/
theorem walk_per_model_failures (path : String) (R : Renderers)
    (fname : String) (rest : List String) (fs : FS) (msgs : List String)
    (hcond : (fs.isfile (pyJoin path fname) &&
      SUPPORTED_EXTS.contains (pyExtOf fname)) = true) :
    (∀ pm fs1 ok ms fs2, ProcessModel.init (pyJoin path fname) fs = some (pm, fs1) →
      pm.render R fs1 = some (ok, ms, fs2) →
      walkLoop path R (fname :: rest) fs msgs =
        walkLoop path R rest fs2
          (msgs ++ ("Processing file: " ++ pyJoin path fname) :: ms)) ∧
    (ProcessModel.init (pyJoin path fname) fs = none →
      walkLoop path R (fname :: rest) fs msgs = none) ∧
    (∀ pm fs1, ProcessModel.init (pyJoin path fname) fs = some (pm, fs1) →
      pm.render R fs1 = none →
      walkLoop path R (fname :: rest) fs msgs = none) := by
  refine ⟨?_, ?_, ?_⟩
  · intro pm fs1 ok ms fs2 hi hr
    simp only [walkLoop]
    rw [if_pos hcond]
    simp only [hi, hr]
  · intro hi
    simp only [walkLoop]
    rw [if_pos hcond]
    simp only [hi]
  · intro pm fs1 hi hr
    simp only [walkLoop]
    rw [if_pos hcond]
    simp only [hi, hr]

/-- Concrete check of the amended claim C9: a renderer that yields `None`
for `m/a.obj` is a detected per-model failure — `render` returns `false`
and the walk goes on to the sibling `b.obj` — while in `fsBad` the
constructor's `makedirs` exception aborts the walk before `b.obj`. -/
theorem walk_per_model_failures_concrete :
    (walkLoop "m" ⟨fun _ => .pyNone, fun _ => .pyNone, fun _ => []⟩
        ["a.obj", "b.obj"] ⟨[("m/a.obj", [1]), ("m/b.obj", [2])], [("m", ["a.obj", "b.obj"])]⟩
        [] =
      walkLoop "m" ⟨fun _ => .pyNone, fun _ => .pyNone, fun _ => []⟩ ["b.obj"]
        ⟨[("m/a.obj", [1]), ("m/b.obj", [2])],
          [("m", ["a.obj", "b.obj"]), ("m/thumbnails", [])]⟩
        ([] ++ ("Processing file: " ++ pyJoin "m" "a.obj") ::
          ["Model conversion failed or returned error: None"])) ∧
    walkLoop "m" RW8 ["a.obj", "b.obj"] fsBad [] = none := by
  constructor
  · exact (walk_per_model_failures "m"
      ⟨fun _ => .pyNone, fun _ => .pyNone, fun _ => []⟩ "a.obj" ["b.obj"]
      ⟨[("m/a.obj", [1]), ("m/b.obj", [2])], [("m", ["a.obj", "b.obj"])]⟩ []
      (by decide)).1
      (⟨"m/a.obj", "m", "a", "m/thumbnails", "m/thumbnails/a.png"⟩ : ProcessModel)
      ⟨[("m/a.obj", [1]), ("m/b.obj", [2])],
        [("m", ["a.obj", "b.obj"]), ("m/thumbnails", [])]⟩
      false ["Model conversion failed or returned error: None"]
      ⟨[("m/a.obj", [1]), ("m/b.obj", [2])],
        [("m", ["a.obj", "b.obj"]), ("m/thumbnails", [])]⟩
      (by decide) (by decide)
  · exact (walk_per_model_failures "m" RW8 "a.obj" ["b.obj"] fsBad []
      (by decide)).2.1 (by decide)
